import Mathlib

/-!
Shallow embedding of the multi-tier face-recognition service
(`app-tier/backend.py`, `web-tier/controller.py`, `web-tier/server.py`).

External effects (S3, SQS, EC2) are modelled by outcome parameters: each
effectful call is given its outcome as an explicit argument, and each
embedded function returns the trace of effects the Python code performs
(dead-letter sends, queue deletes, state updates, HTTP status codes).
Pure control flow, guard conditions and arithmetic are translated directly
from the source.
-/

/-! ## Worker pipeline (`app-tier/backend.py`) -/

/-- Outcome of `json.loads(request['Body'])` plus the `.get` lookups in
`handle_request`: either the body is not valid JSON (`JSONDecodeError`),
or it parses and yields optional `request_id` and `filename` fields. -/
inductive ParseOutcome
  | malformed
  | ok (request_id : Option String) (filename : Option String)
deriving DecidableEq, Repr

/-- Outcome of the `face_match(tmp_path, 'data.pt')[0]` call in
`handle_request`: a match result, an `IndexError` (no face detected,
handled as a sentinel result), a `FileNotFoundError` for the model file,
or any other exception. -/
inductive InferOutcome
  | matched (r : String)
  | noFace
  | dataMissing
  | failed
deriving DecidableEq, Repr

/-- The environment of one `handle_request` call: the outcome of each
effectful step, in program order.  `downloadOk` is the return value of
`download_file_with_retry`, `fileValid` the `os.path.exists`/`getsize`
check, `uploadOk` the return value of `upload_result_with_retry`,
`respondOk` the return value of `send_response_with_retry`, and
`dlqDeliverOk` whether a DLQ send (if requested) goes through. -/
structure WorkerEnv where
  parse : ParseOutcome
  downloadOk : Bool
  fileValid : Bool
  infer : InferOutcome
  uploadOk : Bool
  respondOk : Bool
  dlqDeliverOk : Bool
deriving DecidableEq, Repr

/-- The externally visible effects of one `handle_request` call:
whether `send_to_dlq` was invoked, whether the response message was
published, whether `sqs.delete_message` on the request queue was
attempted, and the boolean return value. -/
structure WorkerTrace where
  dlqRequested : Bool
  responseSent : Bool
  deleteAttempted : Bool
  success : Bool
deriving DecidableEq, Repr

/-- The trace of a `handle_request` path that calls `send_to_dlq` and
returns `False`. -/
def dlqExit : WorkerTrace := ⟨true, false, false, false⟩

/-- `handle_request` from `app-tier/backend.py`, lines 154-252, as a
function from the outcomes of its effectful steps to its effect trace.
Mirrors the source order: parse, filename guard, download, local-file
validation, inference, result upload, response publish, and only then
the delete of the source message (whose own failure is swallowed). -/
def handle_request (env : WorkerEnv) : WorkerTrace :=
  match env.parse with
  | .malformed => ⟨false, false, false, false⟩
  | .ok _ filename =>
    match filename with
    | none => dlqExit
    | some fname =>
      if fname = "" then dlqExit
      else if env.downloadOk = false then dlqExit
      else if env.fileValid = false then dlqExit
      else
        match env.infer with
        | .dataMissing => dlqExit
        | .failed => dlqExit
        | _ =>
          if env.uploadOk = false then dlqExit
          else if env.respondOk = false then ⟨false, false, false, false⟩
          else ⟨false, true, true, true⟩

/-- All pipeline stages of `handle_request` through the response publish
succeeded: the body parsed with a nonempty filename, the download, the
local validation, the inference (a no-face `IndexError` counts as
success, producing the sentinel result), the result upload, and the
response send. -/
def pipelineStagesOk (env : WorkerEnv) : Bool :=
  match env.parse with
  | .malformed => false
  | .ok _ none => false
  | .ok _ (some fname) =>
      (fname != "") && env.downloadOk && env.fileValid &&
      (match env.infer with
       | .matched _ => true
       | .noFace => true
       | .dataMissing => false
       | .failed => false) &&
      env.uploadOk && env.respondOk

/-- Stages of `handle_request` up to and including the result upload
succeeded (everything `pipelineStagesOk` requires except the response
publish). -/
def stagesThroughUploadOk (env : WorkerEnv) : Bool :=
  match env.parse with
  | .malformed => false
  | .ok _ none => false
  | .ok _ (some fname) =>
      (fname != "") && env.downloadOk && env.fileValid &&
      (match env.infer with
       | .matched _ => true
       | .noFace => true
       | .dataMissing => false
       | .failed => false) &&
      env.uploadOk

/-- Outcome of one `sqs.send_message` attempt inside
`send_response_with_retry`: success, a `ClientError` (retried with
backoff), or an unexpected exception (immediate `False`). -/
inductive SendOutcome
  | ok
  | clientError
  | otherError
deriving DecidableEq, Repr

/-- `send_response_with_retry` from `app-tier/backend.py`, lines 133-152:
iterates up to `maxRetries` attempts over the outcome stream; success
returns `True`, a `ClientError` on the last attempt returns `False`,
an unexpected exception returns `False` immediately. -/
def send_response_with_retry : List SendOutcome → Nat → Bool
  | _, 0 => false
  | [], _ + 1 => false
  | .ok :: _, _ + 1 => true
  | .clientError :: rest, n + 1 => if n = 0 then false else send_response_with_retry rest n
  | .otherError :: _, _ + 1 => false

/-- Outcome of one `sqs.receive_message` call in the worker: a message
(carrying the `WorkerEnv` that will govern its handling), an empty
response, or an AWS/unexpected error. -/
inductive ReceiveOutcome
  | messages (env : WorkerEnv)
  | empty
  | error
deriving DecidableEq, Repr

/-- `check_for_more_requests` from `app-tier/backend.py`, lines 262-277:
a zero-visibility-timeout probe of the request queue; returns `true`
exactly when the receive yields at least one message, and `false` on an
empty response or any error. -/
def check_for_more_requests : ReceiveOutcome → Bool
  | .messages _ => true
  | .empty => false
  | .error => false

/-- What one iteration of the worker's `main` loop decides: keep looping
with an updated consecutive-failure counter, break because the long
poll returned no messages, break because the post-success probe found
no more work, or exit fatally after too many consecutive failures. -/
inductive StepResult
  | continueLoop (failures : Nat)
  | exitEmpty
  | exitNoMore
  | exitTooManyFailures
deriving DecidableEq, Repr

/-- `max_consecutive_failures` from `main` in `app-tier/backend.py`. -/
def max_consecutive_failures : Nat := 5

/-- One iteration of the `while True` loop of `main` in
`app-tier/backend.py`, lines 291-336: `recv` is the outcome of the
20-second long poll, `probe` the outcome of the zero-visibility probe
used by `check_for_more_requests` after a success.  An empty long poll
breaks the loop; an error or a failed `handle_request` bumps the
consecutive-failure counter and exits the process once it reaches
`max_consecutive_failures`; a success resets the counter and continues
only if the probe finds more work. -/
def main_loop_step (failures : Nat) (recv : ReceiveOutcome) (probe : ReceiveOutcome) :
    StepResult :=
  match recv with
  | .empty => .exitEmpty
  | .error =>
      if max_consecutive_failures ≤ failures + 1 then .exitTooManyFailures
      else .continueLoop (failures + 1)
  | .messages env =>
      if (handle_request env).success then
        if check_for_more_requests probe then .continueLoop 0 else .exitNoMore
      else if max_consecutive_failures ≤ failures + 1 then .exitTooManyFailures
      else .continueLoop (failures + 1)

/-! ## Fleet controller (`web-tier/controller.py`) -/

/-- The circuit-breaker fields of `AutoscalingController`:
`circuit_breaker_failures` and `last_circuit_breaker_failure` (time as a
natural number of seconds). -/
structure BreakerState where
  failures : Nat
  lastFailure : Nat
deriving DecidableEq, Repr

/-- The circuit-breaker constants of `AutoscalingController.__init__`:
`circuit_breaker_threshold` and `circuit_breaker_timeout` (the
cool-down duration). -/
structure BreakerConfig where
  threshold : Nat
  cooldown : Nat
deriving DecidableEq, Repr

/-- The concrete constants from `__init__`: threshold 5, cool-down 60 s. -/
def defaultBreakerConfig : BreakerConfig := ⟨5, 60⟩

/-- `AutoscalingController._record_failure`: increment the failure
counter and timestamp the failure. -/
def record_failure (s : BreakerState) (now : Nat) : BreakerState :=
  ⟨s.failures + 1, now⟩

/-- `AutoscalingController._record_success`: reset the failure counter
to zero (the guard `if failures > 0` only avoids a redundant log). -/
def record_success (s : BreakerState) : BreakerState :=
  if 0 < s.failures then ⟨0, s.lastFailure⟩ else s

/-- `AutoscalingController._is_circuit_breaker_open`, lines 51-59:
returns whether the breaker is open and the possibly reset state.  Open
when the counter has reached the threshold and the cool-down has not
elapsed since the last failure; once the cool-down has elapsed the
counter is reset to zero and the breaker reports closed. -/
def is_circuit_breaker_open (cfg : BreakerConfig) (s : BreakerState) (now : Nat) :
    Bool × BreakerState :=
  if cfg.threshold ≤ s.failures then
    if now - s.lastFailure < cfg.cooldown then (true, s)
    else (false, ⟨0, s.lastFailure⟩)
  else (false, s)

/-- Outcome of the `describe_instances` call in
`_count_running_instances`: a list of instance ids, or a `ClientError`
(the only exception that method catches). -/
inductive CountOutcome
  | ok (instances : List String)
  | clientError
deriving DecidableEq, Repr

/-- `AutoscalingController._count_running_instances`, lines 73-99: on
success returns the pending/running instances; on a `ClientError` it
logs and returns the empty list — it does NOT touch the circuit
breaker. -/
def count_running_instances : CountOutcome → BreakerState → List String × BreakerState
  | .ok l, s => (l, s)
  | .clientError, s => ([], s)

/-- Outcome of the `describe_instances` call in
`_find_stopped_instances`: a list of stopped instance ids, a
`ClientError`, or an unexpected exception (both caught there). -/
inductive DescribeOutcome
  | ok (instances : List String)
  | clientError
  | otherError
deriving DecidableEq, Repr

/-- `AutoscalingController._find_stopped_instances`, lines 101-132: on
success returns the stopped instances; both error paths record a
circuit-breaker failure and return the empty list. -/
def find_stopped_instances : DescribeOutcome → BreakerState → Nat →
    List String × BreakerState
  | .ok l, s, _ => (l, s)
  | .clientError, s, now => ([], record_failure s now)
  | .otherError, s, now => ([], record_failure s now)

/-- Outcome of one `get_queue_attributes` attempt in
`_check_queue_length`: the two counters, a `ClientError` (retried), or
an unexpected exception (immediate 0). -/
inductive QueueAttrOutcome
  | ok (waiting notVisible : Nat)
  | clientError
  | otherError
deriving DecidableEq, Repr

/-- `AutoscalingController._check_queue_length`, lines 134-157: up to
`maxRetries` (= 3) attempts over the outcome stream.  A successful
attempt returns visible + in-flight messages without touching the
breaker; a `ClientError` on the last attempt or an unexpected exception
records a breaker failure and returns 0. -/
def check_queue_length : List QueueAttrOutcome → Nat → BreakerState → Nat →
    Nat × BreakerState
  | _, 0, s, _ => (0, s)
  | [], _ + 1, s, _ => (0, s)
  | .ok w p :: _, _ + 1, s, _ => (w + p, s)
  | .clientError :: rest, n + 1, s, now =>
      if n = 0 then (0, record_failure s now) else check_queue_length rest n s now
  | .otherError :: _, _ + 1, s, now => (0, record_failure s now)

/-- Outcome of a `start_instances`/`stop_instances` call: success, an
`IncorrectInstanceState` error (treated as success), an
`InvalidInstanceID.NotFound` error (hard failure, breaker untouched), a
different `ClientError`, or an unexpected exception. -/
inductive Ec2Outcome
  | ok
  | incorrectState
  | notFound
  | clientError
  | otherError
deriving DecidableEq, Repr

/-- `AutoscalingController._launch_instance`, lines 160-182: success
records a breaker success; `IncorrectInstanceState` counts as success
without touching the breaker; `NotFound` fails without touching the
breaker; other errors record a breaker failure. -/
def launch_instance : Ec2Outcome → BreakerState → Nat → Bool × BreakerState
  | .ok, s, _ => (true, record_success s)
  | .incorrectState, s, _ => (true, s)
  | .notFound, s, _ => (false, s)
  | .clientError, s, now => (false, record_failure s now)
  | .otherError, s, now => (false, record_failure s now)

/-- `AutoscalingController._shutdown_instance`, lines 184-209: the same
error handling as `_launch_instance`, for `stop_instances`. -/
def shutdown_instance : Ec2Outcome → BreakerState → Nat → Bool × BreakerState
  | .ok, s, _ => (true, record_success s)
  | .incorrectState, s, _ => (true, s)
  | .notFound, s, _ => (false, s)
  | .clientError, s, now => (false, record_failure s now)
  | .otherError, s, now => (false, record_failure s now)

/-- The samples one iteration of `start_monitoring` works with:
`reqCount`/`respCount` are the first queue-length samples, `active` the
pending-or-running instances, `idle` the stopped instances, and
`req2`/`resp2` the scale-down confirmation re-samples taken after the
one-second pause. -/
structure TickSample where
  reqCount : Nat
  respCount : Nat
  active : List String
  idle : List String
  req2 : Nat
  resp2 : Nat
deriving DecidableEq, Repr

/-- The scaling decision of one `start_monitoring` iteration
(`web-tier/controller.py`, lines 237-267): the instances sent start
commands and the instances sent stop commands.  Scale up when the
request queue is non-empty and fewer than `min(req_count,
max_instances)` instances are active: start the first
`min(min(req_count - active, max_instances - active), idle)` stopped
instances.  Otherwise scale down only when the first total-pending
sample is zero, some instance is active, and the re-sample is also
zero: stop every active instance. -/
def scaling_tick (maxInstances : Nat) (t : TickSample) : List String × List String :=
  if 0 < t.reqCount ∧ t.active.length < min t.reqCount maxInstances then
    let needed := min (t.reqCount - t.active.length) (maxInstances - t.active.length)
    let available := min needed t.idle.length
    (t.idle.take available, [])
  else if t.reqCount + t.respCount = 0 ∧ 0 < t.active.length then
    if t.req2 + t.resp2 = 0 then ([], t.active) else ([], [])
  else ([], [])

/-! ## Front door / correlator (`web-tier/server.py`) -/

/-- An uploaded file as the Flask handler sees it: its client-supplied
filename and its size in bytes. -/
structure UploadedFile where
  filename : String
  size : Nat
deriving DecidableEq, Repr

/-- `ALLOWED_EXTENSIONS` from `web-tier/server.py`. -/
def ALLOWED_EXTENSIONS : List String := ["png", "jpg", "jpeg", "gif", "bmp"]

/-- `MAX_FILE_SIZE` default from `web-tier/server.py` (10 MB). -/
def MAX_FILE_SIZE : Nat := 10485760

/-- Python's `c in s` membership test, on the character list of a
string. -/
def containsChar (c : Char) : List Char → Bool
  | [] => false
  | a :: rest => a == c || containsChar c rest

/-- Python's `s.split(c)` on the character list of a string: the
maximal runs between occurrences of `c` (so `rsplit(c, 1)[1]` is the
last element). -/
def splitOnChar (c : Char) : List Char → List (List Char)
  | [] => [[]]
  | a :: rest =>
    if a == c then [] :: splitOnChar c rest
    else
      match splitOnChar c rest with
      | [] => [[a]]
      | g :: gs => (a :: g) :: gs

/-- `allowed_file` from `web-tier/server.py`, lines 57-60: the filename
contains a dot and the lowercased text after the last dot
(`rsplit('.', 1)[1].lower()`) is an allowed extension. -/
def allowed_file (filename : String) : Bool :=
  containsChar '.' filename.data &&
    ALLOWED_EXTENSIONS.contains
      (String.mk (List.map Char.toLower ((splitOnChar '.' filename.data).getLastD [])))

/-- `validate_file` from `web-tier/server.py`, lines 62-81: reject a
missing file or empty filename, a disallowed extension, an oversized
file, or an empty file; otherwise accept. -/
def validate_file (file : Option UploadedFile) : Bool × String :=
  match file with
  | none => (false, "No file provided")
  | some f =>
    if f.filename = "" then (false, "No file provided")
    else if allowed_file f.filename = false then (false, "File type not allowed")
    else if MAX_FILE_SIZE < f.size then (false, "File too large")
    else if f.size = 0 then (false, "Empty file not allowed")
    else (true, "Valid file")

/-- Outcome of one S3 upload or SQS send attempt inside
`process_post_request`'s retry loops (only `ClientError` is caught and
retried there). -/
inductive AttemptOutcome
  | ok
  | clientError
deriving DecidableEq, Repr

/-- The shared shape of the two bounded retry loops in
`process_post_request` (`for attempt in range(3)`): succeed on the
first successful attempt, give up after a `ClientError` on the last
attempt. -/
def retry_ok : List AttemptOutcome → Nat → Bool
  | _, 0 => false
  | [], _ + 1 => false
  | .ok :: _, _ + 1 => true
  | .clientError :: rest, n + 1 => if n = 0 then false else retry_ok rest n

/-- The environment of one `process_post_request` call: whether the
form carried an `inputFile` field, the file itself, the outcome streams
of the S3-upload and SQS-send retry loops, and whether a result is
published into the pending table before the request timeout. -/
structure SubmitEnv where
  inputFilePresent : Bool
  file : Option UploadedFile
  uploadAttempts : List AttemptOutcome
  sqsAttempts : List AttemptOutcome
  resultArrives : Bool
deriving DecidableEq, Repr

/-- The externally visible outcome of one `process_post_request` call:
the HTTP status returned, whether a Pending Entry was inserted for the
filename, whether it was removed again (by rollback, resolution or
timeout), and whether a compensating `s3.delete_object` was attempted. -/
structure SubmitTrace where
  status : Nat
  pendingInserted : Bool
  pendingRemoved : Bool
  s3DeleteAttempted : Bool
deriving DecidableEq, Repr

/-- `process_post_request` from `web-tier/server.py`, lines 163-252, as
a function from step outcomes to its effect trace.  Mirrors the source
order: reject a missing field or invalid file with 400; three S3 upload
attempts, exhaustion returning 500; insert the Pending Entry; three SQS
send attempts, exhaustion popping the entry, attempting a best-effort
delete of the stored object and returning 500; then wait for the
result, returning 200 on arrival and 504 (after popping the entry) on
timeout. -/
def process_post_request (env : SubmitEnv) : SubmitTrace :=
  if env.inputFilePresent = false then ⟨400, false, false, false⟩
  else if (validate_file env.file).1 = false then ⟨400, false, false, false⟩
  else if retry_ok env.uploadAttempts 3 = false then ⟨500, false, false, false⟩
  else if retry_ok env.sqsAttempts 3 = false then ⟨500, true, true, true⟩
  else if env.resultArrives then ⟨200, true, true, false⟩
  else ⟨504, true, true, false⟩

/-- A response-queue message as the correlator thread sees it after
`json.loads`: whether the body parsed at all, and the optional
`filename` and `result` fields (`none` models both a missing field and
an explicit null). -/
structure RespMessage where
  parseOk : Bool
  filename : Option String
  result : Option String
deriving DecidableEq, Repr

/-- The matching loop inside `retrieve_responses`, lines 110-115: walk
the pending table in order, fill the first key equal to the basename or
starting with `basename ++ "."` with the formatted result, and stop
(the `break`); all other entries are untouched. -/
def fill_first (basename result : String) :
    List (String × Option String) → List (String × Option String)
  | [] => []
  | (k, v) :: rest =>
    if List.isPrefixOf (basename.data ++ ['.']) k.data || k == basename then
      (k, some (basename ++ ":" ++ result)) :: rest
    else (k, v) :: fill_first basename result rest

/-- The per-message body of `retrieve_responses` from
`web-tier/server.py`, lines 98-121: returns the updated pending table
and whether `sqs.delete_message` was attempted.  A body that fails to
parse is skipped without deletion; a parsed body with a missing or
empty `filename`, or a missing/null `result`, is skipped without
deletion (`continue`); otherwise the first matching Pending Entry (if
any) is filled and the message is deleted whether or not a match was
found. -/
def process_response_message (msg : RespMessage)
    (pending : List (String × Option String)) :
    List (String × Option String) × Bool :=
  if msg.parseOk = false then (pending, false)
  else
    match msg.filename, msg.result with
    | some b, some r => if b = "" then (pending, false) else (fill_first b r pending, true)
    | some _, none => (pending, false)
    | none, _ => (pending, false)
/-! ## Theorems -/

/-- Claim C1: in `handle_request`, the delete of the source message from
the request queue is attempted exactly when parsing, download,
validation, inference, result upload and response publish all
succeeded, and a dead-lettered job is never also deleted (nor a deleted
job dead-lettered). -/
theorem worker_delete_iff_all_stages (env : WorkerEnv) :
    ((handle_request env).deleteAttempted = pipelineStagesOk env) ∧
    ((handle_request env).dlqRequested && (handle_request env).deleteAttempted) = false := by
  obtain ⟨p, dl, fv, inf, up, rsp, dq⟩ := env
  cases p with
  | malformed => simp [handle_request, pipelineStagesOk]
  | ok rid fn =>
    cases fn with
    | none => simp [handle_request, pipelineStagesOk, dlqExit]
    | some fname =>
      by_cases hf : fname = "" <;>
        cases dl <;> cases fv <;> cases inf <;> cases up <;> cases rsp <;>
          simp [handle_request, pipelineStagesOk, dlqExit, hf, bne]

/-- A concrete `handle_request` environment in which every stage through
the result upload succeeds and the response publish fails after its
bounded retries. -/
def envRespondFail : WorkerEnv :=
  ⟨.ok (some "req-1") (some "cat.jpg"), true, true, .matched "Alice", true, false, true⟩

/-- Claim C5, counterexample: with every stage through the result
upload succeeded and the response publish failed after retries,
`handle_request` does NOT invoke `send_to_dlq` (it only logs and
returns `False`), so the job is not sent to the dead-letter queue. -/
theorem worker_respond_failure_no_dlq_counterexample :
    stagesThroughUploadOk envRespondFail = true ∧
    envRespondFail.respondOk = false ∧
    (handle_request envRespondFail).dlqRequested = false ∧
    (handle_request envRespondFail).success = false := by decide

/-- Claim C5, amended: when the response publish fails after exhausting
the bounded retries (all earlier stages having succeeded), the job is
NOT dead-lettered; `handle_request` reports failure, the source message
is not deleted (so it will be redelivered after its visibility timeout
expires), and no response is published — the result having already been
stored. -/
theorem worker_respond_failure_behavior (env : WorkerEnv) (attempts : List SendOutcome)
    (h1 : stagesThroughUploadOk env = true)
    (h2 : env.respondOk = send_response_with_retry attempts 3)
    (h3 : send_response_with_retry attempts 3 = false) :
    (handle_request env).dlqRequested = false ∧
    (handle_request env).success = false ∧
    (handle_request env).deleteAttempted = false ∧
    (handle_request env).responseSent = false := by
  obtain ⟨p, dl, fv, inf, up, rsp, dq⟩ := env
  have hrsp : rsp = false := h2.trans h3
  subst hrsp
  cases p with
  | malformed => simp [stagesThroughUploadOk] at h1
  | ok rid fn =>
    cases fn with
    | none => simp [stagesThroughUploadOk] at h1
    | some fname =>
      by_cases hf : fname = "" <;>
        cases dl <;> cases fv <;> cases inf <;> cases up <;>
          simp_all [handle_request, stagesThroughUploadOk, dlqExit, bne]

/-- Witness for the amended claim C5, at the concrete environment
`envRespondFail` with three `ClientError` send attempts. -/
theorem worker_respond_failure_behavior_witness :
    (handle_request envRespondFail).dlqRequested = false ∧
    (handle_request envRespondFail).success = false ∧
    (handle_request envRespondFail).deleteAttempted = false ∧
    (handle_request envRespondFail).responseSent = false :=
  worker_respond_failure_behavior envRespondFail
    [.clientError, .clientError, .clientError] (by decide) (by decide) (by decide)

/-- Claim C10: one iteration of the worker's main loop breaks out on an
empty long poll; after a successfully handled job it continues only if
the zero-visibility probe finds another message and otherwise breaks;
and it continues looping exactly when either work keeps arriving (a
handled job and a non-empty probe) or a recoverable failure left the
consecutive-failure counter below the limit. -/
theorem worker_main_loop_termination (failures : Nat) (recv probe : ReceiveOutcome) :
    (main_loop_step failures .empty probe = .exitEmpty) ∧
    (∀ env, (handle_request env).success = true →
        main_loop_step failures (.messages env) probe =
          (if check_for_more_requests probe then .continueLoop 0 else .exitNoMore)) ∧
    (∀ f', main_loop_step failures recv probe = .continueLoop f' →
        ((∃ env, recv = .messages env ∧ (handle_request env).success = true ∧
            check_for_more_requests probe = true ∧ f' = 0) ∨
         (f' = failures + 1 ∧ failures + 1 < max_consecutive_failures ∧
            (recv = .error ∨
             ∃ env, recv = .messages env ∧ (handle_request env).success = false)))) := by
  refine ⟨rfl, ?_, ?_⟩
  · intro env h
    simp [main_loop_step, h]
  · intro f' h
    cases recv with
    | empty => simp [main_loop_step] at h
    | error =>
      right
      by_cases h5 : max_consecutive_failures ≤ failures + 1 <;>
        simp_all [main_loop_step]
    | messages env =>
      by_cases hs : (handle_request env).success <;>
        by_cases h5 : max_consecutive_failures ≤ failures + 1 <;>
          by_cases hp : check_for_more_requests probe <;>
            simp_all [main_loop_step]

/-- Claim C2: whenever the request queue is non-empty and fewer than
`min(depth, max_instances)` instances are pending-or-running, the
controller issues start commands to exactly
`min(min(depth - running, max_instances - running), idle)` stopped
instances. -/
theorem controller_scale_up_count (maxInstances : Nat) (t : TickSample)
    (h1 : 0 < t.reqCount) (h2 : t.active.length < min t.reqCount maxInstances) :
    (scaling_tick maxInstances t).1.length =
      min (min (t.reqCount - t.active.length) (maxInstances - t.active.length))
        t.idle.length := by
  unfold scaling_tick
  rw [if_pos ⟨h1, h2⟩]
  simp [List.length_take]

/-- The spec's scale-up scenario: request depth 6, `max_instances` 5,
2 running instances, 10 idle instances. -/
def tScaleUp : TickSample :=
  ⟨6, 0, ["i-1", "i-2"],
   ["s-1", "s-2", "s-3", "s-4", "s-5", "s-6", "s-7", "s-8", "s-9", "s-10"], 0, 0⟩

/-- Witness for claim C2: in the spec's scenario (depth 6, max 5,
2 running, 10 idle) exactly 3 start commands are issued. -/
theorem controller_scale_up_count_witness :
    (scaling_tick 5 tScaleUp).1.length = 3 :=
  Eq.trans (controller_scale_up_count 5 tScaleUp (by decide) (by decide)) (by decide)

/-- Claim C3, counterexample: a failed `describe_instances` call in
`_count_running_instances` (a control-surface call) leaves the breaker
counter at 3 instead of incrementing it to 4, and a successful one
leaves a nonzero counter at 3 instead of resetting it to zero — so not
every failed control-surface call increments the counter, nor does
every successful one reset it. -/
theorem circuit_breaker_listing_counterexample :
    count_running_instances .clientError ⟨3, 10⟩ = ([], ⟨3, 10⟩) ∧
    ((count_running_instances .clientError ⟨3, 10⟩).2.failures == 3 + 1) = false ∧
    count_running_instances (.ok ["i-1"]) ⟨3, 10⟩ = (["i-1"], ⟨3, 10⟩) ∧
    ((count_running_instances (.ok ["i-1"]) ⟨3, 10⟩).2.failures == 0) = false := by
  decide

/-- Claim C3, amended: `_record_failure` increments the counter and
records the failure time and `_record_success` resets the counter to
zero; the failure paths of the queue-length check, the stopped-instance
listing and the start/stop commands (other than instance-not-found)
record a failure, successful start/stop commands record a success,
while the queue-length check and the instance listings leave the
breaker untouched on success and the running-instance listing never
touches it at all; the breaker is open exactly when the counter has
reached the threshold and less than the cool-down has elapsed since the
last failure, and once the cool-down has elapsed the counter resets (so
scaling resumes). -/
theorem circuit_breaker_state_machine (cfg : BreakerConfig) (s : BreakerState) (now : Nat) :
    (record_failure s now = ⟨s.failures + 1, now⟩) ∧
    ((record_success s).failures = 0) ∧
    ((is_circuit_breaker_open cfg s now).1 = true ↔
        cfg.threshold ≤ s.failures ∧ now - s.lastFailure < cfg.cooldown) ∧
    ((is_circuit_breaker_open cfg s now).2.failures =
        if cfg.threshold ≤ s.failures ∧ cfg.cooldown ≤ now - s.lastFailure then 0
        else s.failures) ∧
    (∀ w p rest, (check_queue_length (.ok w p :: rest) 3 s now).2 = s) ∧
    ((check_queue_length [.clientError, .clientError, .clientError] 3 s now).2 =
        record_failure s now) ∧
    (∀ rest, (check_queue_length (.otherError :: rest) 3 s now).2 = record_failure s now) ∧
    (∀ l, (find_stopped_instances (.ok l) s now).2 = s) ∧
    ((find_stopped_instances .clientError s now).2 = record_failure s now) ∧
    ((find_stopped_instances .otherError s now).2 = record_failure s now) ∧
    ((launch_instance .clientError s now).2 = record_failure s now) ∧
    ((launch_instance .otherError s now).2 = record_failure s now) ∧
    ((launch_instance .ok s now).2 = record_success s) ∧
    ((shutdown_instance .clientError s now).2 = record_failure s now) ∧
    ((shutdown_instance .otherError s now).2 = record_failure s now) ∧
    ((shutdown_instance .ok s now).2 = record_success s) ∧
    (∀ o, (count_running_instances o s).2 = s) := by
  refine ⟨rfl, ?_, ?_, ?_, fun w p rest => rfl, rfl, fun rest => rfl, fun l => rfl,
    rfl, rfl, rfl, rfl, rfl, rfl, rfl, rfl, fun o => ?_⟩
  · unfold record_success
    split
    · rfl
    · omega
  · unfold is_circuit_breaker_open
    split_ifs <;> simp_all
  · unfold is_circuit_breaker_open
    split_ifs <;> simp_all
    omega
  · cases o <;> rfl

/-- Claim C4: stop commands are issued exactly when the first
total-pending sample (request depth plus response depth) is zero, at
least one instance is pending-or-running, and the confirming re-sample
taken after the pause is also zero — in which case every active
instance is stopped; a non-zero re-sample (or first sample) yields no
stop commands. -/
theorem controller_scale_down_two_phase (maxInstances : Nat) (t : TickSample) :
    (scaling_tick maxInstances t).2 =
      (if t.reqCount + t.respCount = 0 ∧ 0 < t.active.length ∧ t.req2 + t.resp2 = 0
       then t.active else []) := by
  unfold scaling_tick
  split_ifs <;> simp_all

/-- Claim C8: in any tick, either no start command is issued or the
number of start commands plus the already pending-or-running instances
stays within `max_instances`; and every instance given a start command
comes from the observed stopped list. -/
theorem controller_max_instances_invariant (maxInstances : Nat) (t : TickSample) :
    ((scaling_tick maxInstances t).1 = [] ∨
      t.active.length + (scaling_tick maxInstances t).1.length ≤ maxInstances) ∧
    (scaling_tick maxInstances t).1 ⊆ t.idle := by
  unfold scaling_tick
  split_ifs with h1 h2 h3 <;>
    first
      | exact ⟨Or.inl rfl, by simp⟩
      | refine ⟨Or.inr ?_, List.take_subset _ _⟩
        simp [List.length_take]
        omega

/-- Claim C6: when the SQS enqueue fails on all three attempts (the
request having passed validation and the S3 upload having succeeded),
`process_post_request` removes the Pending Entry it inserted, attempts
a best-effort delete of the stored payload, and returns HTTP 500. -/
theorem front_door_enqueue_failure_rollback (env : SubmitEnv)
    (h1 : env.inputFilePresent = true)
    (h2 : (validate_file env.file).1 = true)
    (h3 : retry_ok env.uploadAttempts 3 = true)
    (h4 : retry_ok env.sqsAttempts 3 = false) :
    process_post_request env = ⟨500, true, true, true⟩ := by
  simp [process_post_request, h1, h2, h3, h4]

/-- A concrete submission environment whose SQS enqueue fails on all
three attempts. -/
def envEnqueueFail : SubmitEnv :=
  ⟨true, some ⟨"cat.jpg", 2048⟩, [.ok], [.clientError, .clientError, .clientError], false⟩

/-- Witness for claim C6 at `envEnqueueFail`. -/
theorem front_door_enqueue_failure_rollback_witness :
    process_post_request envEnqueueFail = ⟨500, true, true, true⟩ :=
  front_door_enqueue_failure_rollback envEnqueueFail
    (by decide) (by decide) (by decide) (by decide)

/-- Claim C7: every well-formed Result Message — parsed body, nonempty
filename base, non-null result — has its queue delete attempted,
whatever the pending table holds (in particular when no entry
matches). -/
theorem correlator_deletes_wellformed (msg : RespMessage) (b r : String)
    (pending : List (String × Option String))
    (h1 : msg.parseOk = true) (h2 : msg.filename = some b) (h3 : (b == "") = false)
    (h4 : msg.result = some r) :
    (process_response_message msg pending).2 = true := by
  obtain ⟨pk, fn, res⟩ := msg
  simp_all [process_response_message]

/-- A Result Message whose caller has no matching Pending Entry. -/
def msgUnmatched : RespMessage := ⟨true, some "cat", some "Alice"⟩

/-- Witness for claim C7: the well-formed message `msgUnmatched` is
deleted even though no entry of the pending table matches its base
name. -/
theorem correlator_deletes_wellformed_witness :
    (process_response_message msgUnmatched [("dog.png", none)]).2 = true :=
  correlator_deletes_wellformed msgUnmatched "cat" "Alice" [("dog.png", none)]
    (by decide) (by decide) (by decide) (by decide)

/-- Claim C9: a parsed response message with a missing or empty
`filename`, or a missing/null `result`, fills no Pending Entry and is
not deleted from the response queue — the correlator skips it, leaving
it to become visible again. -/
theorem correlator_skips_malformed (msg : RespMessage)
    (pending : List (String × Option String))
    (h1 : msg.parseOk = true)
    (h2 : msg.filename = none ∨ msg.filename = some "" ∨ msg.result = none) :
    process_response_message msg pending = (pending, false) := by
  obtain ⟨pk, fn, res⟩ := msg
  rcases h2 with h | h | h <;> cases fn <;> cases res <;> simp_all [process_response_message]

/-- A parsed response message whose `result` field is null. -/
def msgMalformed : RespMessage := ⟨true, some "cat", none⟩

/-- Witness for claim C9 at `msgMalformed`, with a pending entry that
would otherwise match. -/
theorem correlator_skips_malformed_witness :
    process_response_message msgMalformed [("cat.jpg", none)] =
      ([("cat.jpg", none)], false) :=
  correlator_skips_malformed msgMalformed [("cat.jpg", none)] (by decide)
    (Or.inr (Or.inr (by decide)))
